import Mathlib

/-!
Verification of the Multi-Engine OCR Consensus Verifier
(`scripts/ocr_verify.py`, with adapter pre-checks from `scripts/ocr.py`).

Python dicts are modelled as insertion-ordered association lists
(`List (String × α)`); Python floats as exact rationals `ℚ` (all
confidence arithmetic in the source is small ratios such as
`high_count / total_words` compared against the literal `0.8`, where
exact rational arithmetic agrees with the double computation on the
inputs considered here); Python exceptions as `Except String`.
All definitions are translated directly from the source file.
-/

namespace OCRVerify

/-- `EngineResult` dataclass (ocr_verify.py lines 110-120): result from a
single OCR engine. -/
structure EngineResult where
  engine : String
  text : String
  confidence : ℚ
  error : Option String
deriving Repr, DecidableEq

/-- `EngineResult.success` property: `error is None`. -/
def EngineResult.success (r : EngineResult) : Bool :=
  r.error.isNone

/-- `WordComparison` dataclass (lines 123-131): comparison of a single word
across engines. -/
structure WordComparison where
  position : Nat
  readings : List (String × String)
  chosen : Option String
  agreement : String
  confidence : String
  reason : String
deriving Repr, DecidableEq

/-- `VerificationResult` dataclass (lines 134-146): final verification
result with consensus and report. -/
structure VerificationResult where
  source_file : String
  models_used : List String
  consensus_text : String
  overall_confidence : ℚ
  total_words : Nat
  high_confidence_words : Nat
  medium_confidence_words : Nat
  low_confidence_words : Nat
  disagreements : List WordComparison
  engine_results : List (String × EngineResult)
deriving Repr, DecidableEq

/-- Python `\w` word character (`re.findall(r'\b\w+\b', ...)`) over the
ASCII range: letters, digits, underscore. -/
def isWordChar (c : Char) : Bool :=
  c.isAlphanum || c == '_'

/-- Worker for `tokenize`: scans the character list, accumulating the
current maximal run of word characters (reversed) in `acc`. -/
def tokenizeAux : List Char → List Char → List String
  | [], acc => if acc.isEmpty then [] else [String.mk acc.reverse]
  | c :: cs, acc =>
    if isWordChar c then
      tokenizeAux cs (c :: acc)
    else if acc.isEmpty then
      tokenizeAux cs []
    else
      String.mk acc.reverse :: tokenizeAux cs []

/-- `tokenize` (lines 355-359): split text into words for comparison,
`re.findall(r'\b\w+\b', text.lower())` = the maximal runs of word
characters of the lower-cased text (`str.lower` maps each character). -/
def tokenize (text : String) : List String :=
  tokenizeAux (text.data.map Char.toLower) []

/-- `align_texts` (lines 362-385): align multiple texts word-by-word.
Returns one row per position `0..max_len-1`, each row mapping engine to
its token at that position (`""` padding past the end). -/
def align_texts (texts : List (String × String)) : List (List (String × String)) :=
  let tokenized := texts.map (fun p => (p.1, tokenize p.2))
  let max_len := (tokenized.map (fun p => p.2.length)).foldr max 0
  (List.range max_len).map (fun i =>
    tokenized.map (fun p => (p.1, p.2.getD i "")))

/-- First occurrences, in order, of the values of a list: the iteration
order of `collections.Counter` keys. -/
def uniq_in_order (vals : List String) : List String :=
  vals.foldl (fun acc v => if v ∈ acc then acc else acc ++ [v]) []

/-- `Counter(vals)` as an ordered association list: each distinct value in
first-occurrence order, paired with its multiplicity. -/
def counts_in_order (vals : List String) : List (String × Nat) :=
  (uniq_in_order vals).map (fun v => (v, vals.count v))

/-- `Counter.most_common(1)[0]`: the entry with the largest count,
ties broken towards the earliest first occurrence (`heapq.nlargest` is
stable). -/
def most_common1 : List (String × Nat) → String × Nat
  | [] => ("", 0)
  | p :: rest => rest.foldl (fun best q => if q.2 > best.2 then q else best) p

/-- The `ocr_engines` set of `calculate_consensus` (line 420). -/
def ocr_engines : List String := ["docai", "vision"]

/-- The `llm_engines` set of `calculate_consensus` (line 421). -/
def llm_engines : List String := ["claude", "gpt"]

/-- `calculate_consensus` (lines 388-448): consensus for a single word
position. Returns `(chosen_word, agreement_ratio, confidence_level,
reason)`. -/
def calculate_consensus (readings : List (String × String)) :
    Option String × String × String × String :=
  let valid := readings.filter (fun p => p.2 ≠ "")
  if valid.isEmpty then
    (none, "0/0", "low", "No readings")
  else
    let vals := valid.map Prod.snd
    let mc := most_common1 (counts_in_order vals)
    let chosen_word := mc.1
    let count := mc.2
    let total := valid.length
    let agreement := toString count ++ "/" ++ toString total
    if count = total then
      (some chosen_word, agreement, "high", "All " ++ toString total ++ " models agree")
    else if count ≥ 3 then
      let agreeing := (valid.filter (fun p => p.2 = chosen_word)).map Prod.fst
      (some chosen_word, agreement, "high",
        "Majority agreement (" ++ String.intercalate ", " agreeing ++ ")")
    else if count = 2 ∧ total ≥ 3 then
      let ocr_votes := valid.filter (fun p => p.1 ∈ ocr_engines)
      let llm_votes := valid.filter (fun p => p.1 ∈ llm_engines)
      if (ocr_votes.map Prod.snd).dedup.length = 1 ∧ ocr_votes ≠ [] then
        (some ((ocr_votes.map Prod.snd).headD ""), agreement, "medium",
          "OCR engines agree, LLMs differ")
      else if (llm_votes.map Prod.snd).dedup.length = 1 ∧ llm_votes ≠ [] then
        let llm_word := (llm_votes.map Prod.snd).headD ""
        if llm_word = chosen_word then
          (some chosen_word, agreement, "medium", "LLMs agree, OCR engines differ")
        else
          (some chosen_word, agreement, "medium", "Split vote - majority wins")
      else
        (some chosen_word, agreement, "medium", "Split vote - majority wins")
    else
      (none, agreement, "low", "No consensus - flagged for human review")

/-- `successful = {k: v for k, v in engine_results.items() if v.success}`
(line 544). -/
def successful_of (ers : List (String × EngineResult)) : List (String × EngineResult) :=
  ers.filter (fun p => p.2.success)

/-- The texts passed to `align_texts` (line 575):
`{k: v.text for k, v in successful.items()}`. -/
def texts_of (succ : List (String × EngineResult)) : List (String × String) :=
  succ.map (fun p => (p.1, p.2.text))

/-- The `aligned` table of `_build_consensus` (line 576). -/
def aligned_of (ers : List (String × EngineResult)) : List (List (String × String)) :=
  align_texts (texts_of (successful_of ers))

/-- The confidence component of `calculate_consensus` at a row. -/
def confidence_of_row (row : List (String × String)) : String :=
  (calculate_consensus row).2.2.1

/-- `high_count` accumulated over the rows (lines 581-589). -/
def high_count_of (aligned : List (List (String × String))) : Nat :=
  (aligned.filter (fun row => confidence_of_row row = "high")).length

/-- `medium_count` accumulated over the rows (lines 582-591). -/
def medium_count_of (aligned : List (List (String × String))) : Nat :=
  (aligned.filter (fun row => confidence_of_row row = "medium")).length

/-- `low_count` accumulated over the rows (lines 583-593): the `else`
branch of the tier tally. -/
def low_count_of (aligned : List (List (String × String))) : Nat :=
  (aligned.filter
    (fun row => confidence_of_row row ≠ "high" ∧ confidence_of_row row ≠ "medium")).length

/-- The fallback loop of lines 599-603: the token of the first engine, in
the fixed order docai, vision, claude, gpt, that has a non-empty reading
at this position. -/
def fallback_word (readings : List (String × String)) : Option String :=
  (["docai", "vision", "claude", "gpt"] : List String).findSome? (fun e =>
    match readings.find? (fun q => q.1 = e) with
    | some q => if q.2 ≠ "" then some q.2 else none
    | none => none)

/-- `consensus_words` accumulated over the rows (lines 579-603): the
chosen word when truthy (`if chosen:`), else the fallback word when one
exists. -/
def consensus_words_of (aligned : List (List (String × String))) : List String :=
  aligned.foldr
    (fun row acc =>
      let c := (calculate_consensus row).1
      if c.getD "" ≠ "" then c.getD "" :: acc
      else
        match fallback_word row with
        | some u => u :: acc
        | none => acc)
    []

/-- The disagreement test of line 606-607: `unique_readings = set(v for v
in readings.values() if v)`, recorded when `len(unique_readings) > 1`. -/
def disagree_row (row : List (String × String)) : Bool :=
  ((row.map Prod.snd).filter (fun v => v ≠ "")).dedup.length > 1

/-- `disagreements` accumulated over the rows (lines 605-615): a
`WordComparison` for every position with more than one distinct non-empty
reading. -/
def disagreements_of (aligned : List (List (String × String))) : List WordComparison :=
  aligned.enum.filterMap (fun p =>
    if disagree_row p.2 then
      some
        { position := p.1
          readings := p.2
          chosen := (calculate_consensus p.2).1
          agreement := (calculate_consensus p.2).2.1
          confidence := (calculate_consensus p.2).2.2.1
          reason := (calculate_consensus p.2).2.2.2 }
    else none)

/-- `overall_confidence = high_count / total_words if total_words > 0 else
0.0` (line 618). -/
def overall_confidence_of (aligned : List (List (String × String))) : ℚ :=
  if aligned.length > 0 then (high_count_of aligned : ℚ) / (aligned.length : ℚ) else 0

/-- `successful[k].text` dictionary lookup. -/
def lookup_text (l : List (String × EngineResult)) (k : String) : String :=
  match l.find? (fun p => p.1 = k) with
  | some p => p.2.text
  | none => ""

/-- The trusted-engine override of lines 623-628: keep the token-joined
candidate unless `overall_confidence > 0.8` and docai (else vision)
succeeded, in which case use that engine's raw text. -/
def final_text_of (successful : List (String × EngineResult)) (conf : ℚ)
    (candidate : String) : String :=
  if conf > 8/10 ∧ successful.any (fun p => p.1 = "docai") then
    lookup_text successful "docai"
  else if conf > 8/10 ∧ successful.any (fun p => p.1 = "vision") then
    lookup_text successful "vision"
  else candidate

/-- The engine preferred by the trusted-engine override, read off the
`if "docai" in successful ... elif "vision" in successful` chain of lines
625-628: docai first, then vision, checked among the successful
readings. -/
def trusted_engine (succ : List (String × EngineResult)) : Option String :=
  if succ.any (fun p => p.1 = "docai") then some "docai"
  else if succ.any (fun p => p.1 = "vision") then some "vision"
  else none

/-- `OCRVerificationEngine._build_consensus` (lines 537-641): build
consensus from engine results. -/
def build_consensus (source_file : String) (ers : List (String × EngineResult)) :
    VerificationResult :=
  let successful := successful_of ers
  if successful.isEmpty then
    { source_file := source_file
      models_used := ers.map Prod.fst
      consensus_text := ""
      overall_confidence := 0
      total_words := 0
      high_confidence_words := 0
      medium_confidence_words := 0
      low_confidence_words := 0
      disagreements := []
      engine_results := ers }
  else if successful.length = 1 then
    let p := successful.headD ("", ⟨"", "", 0, none⟩)
    { source_file := source_file
      models_used := ers.map Prod.fst
      consensus_text := p.2.text
      overall_confidence := p.2.confidence
      total_words := (tokenize p.2.text).length
      high_confidence_words := 0
      medium_confidence_words := 0
      low_confidence_words := (tokenize p.2.text).length
      disagreements := []
      engine_results := ers }
  else
    let aligned := aligned_of ers
    { source_file := source_file
      models_used := ers.map Prod.fst
      consensus_text :=
        final_text_of successful (overall_confidence_of aligned)
          (String.intercalate " " (consensus_words_of aligned))
      overall_confidence := overall_confidence_of aligned
      total_words := aligned.length
      high_confidence_words := high_count_of aligned
      medium_confidence_words := medium_count_of aligned
      low_confidence_words := low_count_of aligned
      disagreements := disagreements_of aligned
      engine_results := ers }

/-- Per-engine entry of the report's `engine_status` map (lines 659-667). -/
structure EngineStatus where
  success : Bool
  chars : Nat
  confidence : ℚ
  error : Option String
deriving Repr, DecidableEq

/-- The JSON report dictionary of `generate_report` (lines 648-679). -/
structure Report where
  source_file : String
  models_used : List String
  overall_confidence : ℚ
  total_words : Nat
  high_confidence : Nat
  medium_confidence : Nat
  low_confidence : Nat
  disagreement_count : Nat
  engine_status : List (String × EngineStatus)
  disagreements : List WordComparison
deriving Repr, DecidableEq

/-- Round-half-to-even to an integer, as Python `round` does on the exact
value. -/
def round_half_even (q : ℚ) : ℤ :=
  if q - ⌊q⌋ < 1/2 then ⌊q⌋
  else if q - ⌊q⌋ > 1/2 then ⌊q⌋ + 1
  else if 2 ∣ ⌊q⌋ then ⌊q⌋ else ⌊q⌋ + 1

/-- Python `round(x, 4)` on the exact rational value. -/
def round4 (q : ℚ) : ℚ :=
  (round_half_even (q * 10000) : ℚ) / 10000

/-- `generate_report` (lines 648-679): JSON report from a verification
result; the disagreement list is limited to the first 50 entries. -/
def generate_report (r : VerificationResult) : Report :=
  { source_file := r.source_file
    models_used := r.models_used
    overall_confidence := round4 r.overall_confidence
    total_words := r.total_words
    high_confidence := r.high_confidence_words
    medium_confidence := r.medium_confidence_words
    low_confidence := r.low_confidence_words
    disagreement_count := r.disagreements.length
    engine_status :=
      r.engine_results.map (fun p =>
        (p.1,
          { success := p.2.success
            chars := if p.2.success then p.2.text.length else 0
            confidence := round4 p.2.confidence
            error := p.2.error }))
    disagreements := r.disagreements.take 50 }

/-- An engine adapter as `verify` (lines 496-525) distinguishes them: a
dedicated OCR client whose `extract_text` may raise (modelled as
`Except`), returning an `OCRResult`-like (text, confidence) pair, or an
LLM vision client whose `extract_text` never raises. -/
inductive Adapter where
  | dedicated (extract : String → Except String (String × ℚ))
  | llm (extract : String → EngineResult)

/-- `OCRVerificationEngine.__init__` (lines 458-482): build the `clients`
dict in insertion order vision, docai, claude, gpt, filter to the enabled
engines (a non-empty list; an empty `enabled_engines` is falsy and skips
the filter), and raise `ValueError` if no client remains. -/
def mkEngine (vision_client docai_client claude_client gpt_client : Option Adapter)
    (enabled_engines : Option (List String)) :
    Except String (List (String × Adapter)) :=
  let clients :=
    (match vision_client with | some c => [("vision", c)] | none => []) ++
    (match docai_client with | some c => [("docai", c)] | none => []) ++
    (match claude_client with | some c => [("claude", c)] | none => []) ++
    (match gpt_client with | some c => [("gpt", c)] | none => [])
  let clients :=
    match enabled_engines with
    | some es => if es.isEmpty then clients else clients.filter (fun p => p.1 ∈ es)
    | none => clients
  if clients.isEmpty then
    Except.error "At least one OCR engine must be configured"
  else
    Except.ok clients

/-- The engine-dispatch loop of `verify` (lines 494-525): every configured
client is invoked; a dedicated client's exception is captured into a
failed `EngineResult` with empty text and confidence 0. -/
def run_engines (clients : List (String × Adapter)) (image_path : String) :
    List (String × EngineResult) :=
  clients.map (fun p =>
    match p.2 with
    | Adapter.dedicated f =>
      (p.1,
        match f image_path with
        | Except.ok r => { engine := p.1, text := r.1, confidence := r.2, error := none }
        | Except.error e => { engine := p.1, text := "", confidence := 0, error := some e })
    | Adapter.llm f => (p.1, f image_path))

/-- `OCRVerificationEngine.verify` (lines 484-535): raise
`FileNotFoundError` if the path does not exist (the file system is the
`path_exists` parameter), otherwise run all engines and build consensus.
No check of the image extension is performed here. -/
def verify (clients : List (String × Adapter)) (path_exists : Bool)
    (image_path : String) : Except String VerificationResult :=
  if ¬ path_exists then
    Except.error ("Image not found: " ++ image_path)
  else
    Except.ok (build_consensus image_path (run_engines clients image_path))

/-- `SUPPORTED_TYPES` from `scripts/ocr.py` (lines 76-86). -/
def SUPPORTED_TYPES : List (String × String) :=
  [(".jpg", "image/jpeg"), (".jpeg", "image/jpeg"), (".png", "image/png"),
   (".gif", "image/gif"), (".webp", "image/webp"), (".bmp", "image/bmp"),
   (".tiff", "image/tiff"), (".tif", "image/tiff"), (".pdf", "application/pdf")]

/-- `pathlib.Path(p).suffix`: with `name` the final path component and
`i = name.rfind('.')`, the result is `name[i:]` when `0 < i < len(name)-1`
and `''` otherwise. -/
def path_suffix (p : String) : String :=
  let name := (p.data.reverse.takeWhile (fun c => c ≠ '/')).reverse
  let tail := name.reverse.takeWhile (fun c => c ≠ '.')
  if tail.length = name.length then ""
  else
    let i := name.length - tail.length - 1
    if 0 < i ∧ i < name.length - 1 then String.mk (name.drop i) else ""

/-- `DocumentAIClient.extract_text` pre-checks from `scripts/ocr.py`
(lines 432-449): file existence, suffix membership in `SUPPORTED_TYPES`,
size limit of 20MB; then the network call (the oracle `net`). -/
def docai_extract (net : String → Except String (String × ℚ))
    (file_exists : Bool) (file_size : Nat) (image_path : String) :
    Except String (String × ℚ) :=
  if ¬ file_exists then
    Except.error ("File not found: " ++ image_path)
  else
    let suffix := String.mk ((path_suffix image_path).data.map Char.toLower)
    if (SUPPORTED_TYPES.find? (fun p => p.1 = suffix)).isNone then
      Except.error ("Unsupported file type: " ++ suffix)
    else if file_size > 20 * 1024 * 1024 then
      Except.error "File too large"
    else
      net image_path

/-! ### Helper lemmas -/

/-- A string built from a non-empty character list is not the empty
string. -/
theorem string_mk_ne_empty (l : List Char) (h : l ≠ []) : String.mk l ≠ "" := by
  intro hcon
  apply h
  have hdata := congrArg String.data hcon
  simpa using hdata

/-- Every word emitted by the tokenizer worker is non-empty. -/
theorem tokenizeAux_mem_ne_empty :
    ∀ (cs acc : List Char), ∀ w ∈ tokenizeAux cs acc, w ≠ "" := by
  intro cs
  induction cs with
  | nil =>
    intro acc w hw
    by_cases h : acc.isEmpty
    · simp [tokenizeAux, h] at hw
    · simp only [tokenizeAux, if_neg h, List.mem_singleton] at hw
      subst hw
      apply string_mk_ne_empty
      simp only [List.isEmpty_iff] at h
      simpa using h
  | cons c cs ih =>
    intro acc w hw
    simp only [tokenizeAux] at hw
    by_cases h1 : isWordChar c
    · rw [if_pos h1] at hw
      exact ih _ w hw
    · rw [if_neg h1] at hw
      by_cases h2 : acc.isEmpty
      · rw [if_pos h2] at hw
        exact ih _ w hw
      · rw [if_neg h2] at hw
        rcases List.mem_cons.mp hw with h | h
        · subst h
          apply string_mk_ne_empty
          simp only [List.isEmpty_iff] at h2
          simpa using h2
        · exact ih _ w h

/-- Every token produced by `tokenize` is a non-empty string. -/
theorem tokenize_mem_ne_empty (s : String) : ∀ w ∈ tokenize s, w ≠ "" :=
  fun w hw => tokenizeAux_mem_ne_empty _ _ w hw

/-- A value below the running maximum of a list of naturals is exceeded by
some element. -/
theorem lt_foldr_max : ∀ (l : List Nat) (i : Nat), i < l.foldr max 0 → ∃ x ∈ l, i < x := by
  intro l
  induction l with
  | nil => intro i h; simp at h
  | cons a t ih =>
    intro i h
    simp only [List.foldr_cons] at h
    rcases lt_max_iff.mp h with h' | h'
    · exact ⟨a, List.mem_cons_self a t, h'⟩
    · obtain ⟨x, hx, hix⟩ := ih i h'
      exact ⟨x, List.mem_cons_of_mem _ hx, hix⟩

/-- Elements of the first-occurrence fold come from the accumulator or the
list. -/
theorem mem_uniq_foldl :
    ∀ (l acc : List String) (x : String),
      x ∈ l.foldl (fun acc v => if v ∈ acc then acc else acc ++ [v]) acc →
        x ∈ acc ∨ x ∈ l := by
  intro l
  induction l with
  | nil => intro acc x h; exact Or.inl h
  | cons a t ih =>
    intro acc x h
    rw [List.foldl_cons] at h
    rcases ih _ x h with h' | h'
    · by_cases ha : a ∈ acc
      · rw [if_pos ha] at h'
        exact Or.inl h'
      · rw [if_neg ha] at h'
        rcases List.mem_append.mp h' with h'' | h''
        · exact Or.inl h''
        · simp only [List.mem_singleton] at h''
          exact Or.inr (h'' ▸ List.mem_cons_self a t)
    · exact Or.inr (List.mem_cons_of_mem _ h')

/-- Elements of `uniq_in_order` are elements of the list. -/
theorem mem_of_mem_uniq_in_order (l : List String) (x : String)
    (h : x ∈ uniq_in_order l) : x ∈ l := by
  rcases mem_uniq_foldl l [] x h with h' | h'
  · simp at h'
  · exact h'

/-- The first-occurrence fold never shrinks the accumulator. -/
theorem uniq_foldl_length :
    ∀ (l acc : List String),
      acc.length ≤ (l.foldl (fun acc v => if v ∈ acc then acc else acc ++ [v]) acc).length := by
  intro l
  induction l with
  | nil => intro acc; exact le_refl _
  | cons a t ih =>
    intro acc
    rw [List.foldl_cons]
    refine le_trans ?_ (ih _)
    by_cases ha : a ∈ acc
    · rw [if_pos ha]
    · rw [if_neg ha]
      simp

/-- `uniq_in_order` of a non-empty list is non-empty. -/
theorem uniq_in_order_ne_nil (l : List String) (h : l ≠ []) : uniq_in_order l ≠ [] := by
  cases l with
  | nil => exact absurd rfl h
  | cons a t =>
    unfold uniq_in_order
    rw [List.foldl_cons]
    simp only [List.not_mem_nil, if_false, List.nil_append]
    intro hcon
    have := uniq_foldl_length t [a]
    rw [hcon] at this
    simp at this

/-- The best-so-far fold of `most_common1` picks an element of the list. -/
theorem foldl_best_mem :
    ∀ (t : List (String × Nat)) (p : String × Nat),
      t.foldl (fun best q => if q.2 > best.2 then q else best) p ∈ p :: t := by
  intro t
  induction t with
  | nil => intro p; simp
  | cons q t ih =>
    intro p
    rw [List.foldl_cons]
    by_cases h : q.2 > p.2
    · rw [if_pos h]
      exact List.mem_cons_of_mem p (ih q)
    · rw [if_neg h]
      rcases List.mem_cons.mp (ih p) with h' | h'
      · rw [h']
        exact List.mem_cons_self _ _
      · exact List.mem_cons_of_mem _ (List.mem_cons_of_mem _ h')

/-- `most_common1` of a non-empty list returns one of its entries. -/
theorem most_common1_mem (items : List (String × Nat)) (h : items ≠ []) :
    most_common1 items ∈ items := by
  cases items with
  | nil => exact absurd rfl h
  | cons p rest => exact foldl_best_mem rest p

/-- Absorption: folding further copies of an already-seen value leaves the
accumulator unchanged. -/
theorem foldl_uniq_absorb :
    ∀ (m : Nat) (acc : List String) (w : String), w ∈ acc →
      (List.replicate m w).foldl (fun acc v => if v ∈ acc then acc else acc ++ [v]) acc = acc := by
  intro m
  induction m with
  | zero => intro acc w _; rfl
  | succ k ih =>
    intro acc w h
    rw [List.replicate_succ, List.foldl_cons, if_pos h]
    exact ih acc w h

/-- `uniq_in_order` of a constant list is the singleton of its value. -/
theorem uniq_in_order_replicate (n : Nat) (w : String) (h : n ≠ 0) :
    uniq_in_order (List.replicate n w) = [w] := by
  cases n with
  | zero => exact absurd rfl h
  | succ m =>
    unfold uniq_in_order
    rw [List.replicate_succ, List.foldl_cons]
    simp only [List.not_mem_nil, if_false, List.nil_append]
    exact foldl_uniq_absorb m [w] w (List.mem_singleton.mpr rfl)

/-- The running maximum of a constant list is its value. -/
theorem foldr_max_const {α : Type} (n : Nat) :
    ∀ (l : List α), l ≠ [] → ((l.map fun _ => n).foldr max 0) = n := by
  intro l
  induction l with
  | nil => intro h; exact absurd rfl h
  | cons a t ih =>
    intro _
    rw [List.map_cons, List.foldr_cons]
    cases t with
    | nil => simp
    | cons b t' =>
      rw [ih (by simp)]
      exact Nat.max_self n

/-- When the voted values are pairwise distinct, the plurality count of
`most_common1` is 1. -/
theorem most_common1_counts_nodup (vals : List String) (hne : vals ≠ [])
    (hnd : vals.Nodup) : (most_common1 (counts_in_order vals)).2 = 1 := by
  have hcne : counts_in_order vals ≠ [] := by
    unfold counts_in_order
    simpa using uniq_in_order_ne_nil _ hne
  have hmem := most_common1_mem _ hcne
  set mc := most_common1 (counts_in_order vals) with hmc
  unfold counts_in_order at hmem
  rcases List.mem_map.mp hmem with ⟨v, hvu, hveq⟩
  rw [← hveq]
  exact List.count_eq_one_of_mem hnd (mem_of_mem_uniq_in_order _ v hvu)

/-- `calculate_consensus` on a row where every engine holds the same
non-empty word: unanimous agreement, tier high. -/
theorem calculate_consensus_const (engines : List String) (w : String)
    (hne : engines ≠ []) (hw : w ≠ "") :
    calculate_consensus (engines.map (fun e => (e, w))) =
      (some w, toString engines.length ++ "/" ++ toString engines.length, "high",
        "All " ++ toString engines.length ++ " models agree") := by
  unfold calculate_consensus
  have hfilt : (engines.map (fun e => (e, w))).filter (fun p => p.2 ≠ "") =
      engines.map (fun e => (e, w)) := by
    rw [List.filter_eq_self]
    intro p hp
    rcases List.mem_map.mp hp with ⟨e, _, rfl⟩
    simpa using hw
  rw [hfilt]
  have hnil : engines.map (fun e => (e, w)) ≠ [] := by
    simpa using hne
  rw [if_neg (by simpa [List.isEmpty_iff] using hnil)]
  have hvals : (engines.map (fun e => (e, w))).map Prod.snd =
      List.replicate engines.length w := by
    rw [List.map_map]
    exact List.map_const' engines w
  rw [hvals]
  have hcounts : counts_in_order (List.replicate engines.length w) = [(w, engines.length)] := by
    unfold counts_in_order
    rw [uniq_in_order_replicate _ _ (by simpa using hne)]
    simp [List.count_replicate]
  simp [hcounts, most_common1]

/-- Positions selected out of an enumerated list by a predicate on the
elements, as a filtered arithmetic range. -/
theorem filterMap_enumFrom_positions {α β : Type} (f : Nat × α → Option β)
    (g : β → Nat) (P : α → Bool) (d : α)
    (hf : ∀ (n : Nat) (a : α), Option.map g (f (n, a)) = if P a then some n else none) :
    ∀ (l : List α) (n : Nat),
      ((List.enumFrom n l).filterMap f).map g =
        (List.range' n l.length).filter (fun i => P (l.getD (i - n) d)) := by
  intro l
  induction l with
  | nil => intro n; simp
  | cons a t ih =>
    intro n
    have henum : List.enumFrom n (a :: t) = (n, a) :: List.enumFrom (n + 1) t := rfl
    rw [henum, List.length_cons, List.range'_succ, List.filter_cons]
    have hgd0 : (a :: t).getD (n - n) d = a := by
      rw [Nat.sub_self]
      rfl
    rw [hgd0]
    have hcongr : (List.range' (n + 1) t.length).filter
          (fun i => P ((a :: t).getD (i - n) d)) =
        (List.range' (n + 1) t.length).filter (fun i => P (t.getD (i - (n + 1)) d)) := by
      apply List.filter_congr
      intro i hi
      have h1 : n + 1 ≤ i := (List.mem_range'_1.mp hi).1
      have h2 : i - n = (i - (n + 1)) + 1 := by omega
      rw [h2, List.getD_cons_succ]
    have hfa := hf n a
    by_cases hP : P a
    · rw [if_pos hP] at hfa
      rw [if_pos hP, hcongr]
      cases hfb : f (n, a) with
      | none => rw [hfb] at hfa; simp at hfa
      | some b =>
        rw [hfb] at hfa
        simp only [Option.map_some'] at hfa
        rw [List.filterMap_cons_some hfb, List.map_cons,
          Option.some_inj.mp hfa, ih (n + 1)]
    · rw [if_neg hP] at hfa
      rw [if_neg hP, hcongr]
      cases hfb : f (n, a) with
      | none => rw [List.filterMap_cons_none hfb, ih (n + 1)]
      | some b => rw [hfb] at hfa; simp at hfa

/-- The positions in a `disagreements_of` list are exactly the row indices
with more than one distinct non-empty reading, in ascending order. -/
theorem disagreements_of_map_position (aligned : List (List (String × String))) :
    (disagreements_of aligned).map WordComparison.position =
      (List.range aligned.length).filter (fun i => disagree_row (aligned.getD i [])) := by
  unfold disagreements_of
  have henum : aligned.enum = List.enumFrom 0 aligned := rfl
  rw [henum]
  rw [filterMap_enumFrom_positions _ WordComparison.position disagree_row []
    (by
      intro n a
      by_cases h : disagree_row a
      · rw [if_pos h, if_pos h]
        rfl
      · rw [if_neg h, if_neg h]
        rfl)
    aligned 0]
  rw [List.range_eq_range']
  apply List.filter_congr
  intro i _
  rw [Nat.sub_zero]

example : tokenize "Hello, World!" = ["hello", "world"] := by decide

example :
    calculate_consensus
      [("docai", "the"), ("vision", "the"), ("claude", "teh"), ("gpt", "teh")] =
      (some "the", "2/4", "medium", "OCR engines agree, LLMs differ") := by decide

example :
    calculate_consensus [("docai", "abc")] =
      (some "abc", "1/1", "high", "All 1 models agree") := by decide

example :
    calculate_consensus [("docai", "a"), ("claude", "b"), ("gpt", "c")] =
      (none, "1/3", "low", "No consensus - flagged for human review") := by decide

/-! ### Claim theorems -/

/-- C1: when exactly one engine reading is successful, the returned
result's consensus text is that reading's raw text verbatim, its overall
confidence is the reading's self-reported score, the high and medium
counts are 0, and the low count (and total) equal the reading's token
count. -/
theorem claim_C1_single_success (src e : String) (r : EngineResult)
    (ers : List (String × EngineResult)) (h : successful_of ers = [(e, r)]) :
    (build_consensus src ers).consensus_text = r.text ∧
    (build_consensus src ers).overall_confidence = r.confidence ∧
    (build_consensus src ers).high_confidence_words = 0 ∧
    (build_consensus src ers).medium_confidence_words = 0 ∧
    (build_consensus src ers).low_confidence_words = (tokenize r.text).length ∧
    (build_consensus src ers).total_words = (tokenize r.text).length := by
  simp [build_consensus, h]

/-- Witness for C1 at a concrete input: engine vision succeeds alone with
text "ABC DEF" (two tokens); claude fails. -/
theorem claim_C1_single_success_witness :
    successful_of
        [("vision", ⟨"vision", "ABC DEF", 7/10, none⟩),
         ("claude", ⟨"claude", "", 0, some "timeout"⟩)] =
      [("vision", ⟨"vision", "ABC DEF", 7/10, none⟩)] ∧
    ((build_consensus "img"
        [("vision", ⟨"vision", "ABC DEF", 7/10, none⟩),
         ("claude", ⟨"claude", "", 0, some "timeout"⟩)]).consensus_text = "ABC DEF" ∧
      (build_consensus "img"
        [("vision", ⟨"vision", "ABC DEF", 7/10, none⟩),
         ("claude", ⟨"claude", "", 0, some "timeout"⟩)]).overall_confidence = 7/10 ∧
      (build_consensus "img"
        [("vision", ⟨"vision", "ABC DEF", 7/10, none⟩),
         ("claude", ⟨"claude", "", 0, some "timeout"⟩)]).high_confidence_words = 0 ∧
      (build_consensus "img"
        [("vision", ⟨"vision", "ABC DEF", 7/10, none⟩),
         ("claude", ⟨"claude", "", 0, some "timeout"⟩)]).medium_confidence_words = 0 ∧
      (build_consensus "img"
        [("vision", ⟨"vision", "ABC DEF", 7/10, none⟩),
         ("claude", ⟨"claude", "", 0, some "timeout"⟩)]).low_confidence_words =
        (tokenize "ABC DEF").length ∧
      (build_consensus "img"
        [("vision", ⟨"vision", "ABC DEF", 7/10, none⟩),
         ("claude", ⟨"claude", "", 0, some "timeout"⟩)]).total_words =
        (tokenize "ABC DEF").length) :=
  ⟨rfl,
    claim_C1_single_success "img" "vision" ⟨"vision", "ABC DEF", 7/10, none⟩ _ rfl⟩

/-- C5: the 2/2 split row {docai: "the", vision: "the", claude: "teh",
gpt: "teh"} deterministically yields tier medium, reason "OCR engines
agree, LLMs differ", and chosen word "the". -/
theorem claim_C5_tie_break_determinism :
    calculate_consensus
        [("docai", "the"), ("vision", "the"), ("claude", "teh"), ("gpt", "teh")] =
      (some "the", "2/4", "medium", "OCR engines agree, LLMs differ") := by
  decide

/-- Counterexample to C3 as stated: with zero engines configured no
`VerificationResult` (confidence 0.0, empty text) is returned at all —
`OCRVerificationEngine.__init__` raises `ValueError` before `verify` can
be called. -/
theorem claim_C3_counterexample :
    mkEngine none none none none none =
      Except.error "At least one OCR engine must be configured" := rfl

/-- C3 amended: when zero readings succeed, the result has confidence
0.0, empty consensus text and zero counts, with the per-engine failures
recorded (no exception); when zero engines are configured, engine
construction itself fails with the configuration `ValueError` before any
verification call. -/
theorem claim_C3_no_success (src : String) (ers : List (String × EngineResult))
    (h : (successful_of ers).isEmpty = true) :
    build_consensus src ers =
      { source_file := src, models_used := ers.map Prod.fst, consensus_text := "",
        overall_confidence := 0, total_words := 0, high_confidence_words := 0,
        medium_confidence_words := 0, low_confidence_words := 0,
        disagreements := [], engine_results := ers } ∧
    mkEngine none none none none none =
      Except.error "At least one OCR engine must be configured" := by
  constructor
  · simp [build_consensus, h]
  · rfl

/-- Witness for the amended C3 at a concrete input: a single configured
engine whose reading failed. -/
theorem claim_C3_no_success_witness :
    (successful_of [("docai", ⟨"docai", "", 0, some "network error"⟩)]).isEmpty = true ∧
    (build_consensus "img" [("docai", ⟨"docai", "", 0, some "network error"⟩)] =
      { source_file := "img", models_used := ["docai"], consensus_text := "",
        overall_confidence := 0, total_words := 0, high_confidence_words := 0,
        medium_confidence_words := 0, low_confidence_words := 0,
        disagreements := [],
        engine_results := [("docai", ⟨"docai", "", 0, some "network error"⟩)] } ∧
      mkEngine none none none none none =
        Except.error "At least one OCR engine must be configured") :=
  ⟨by decide, claim_C3_no_success "img" _ (by decide)⟩

/-- Counterexample to C8 as stated: a row with exactly one non-empty
reading (vacuously "every valid vote distinct, no word reaches count 2")
is tiered high with the word chosen ("All 1 models agree"), not low with
a null choice. -/
theorem claim_C8_counterexample :
    calculate_consensus [("docai", "abc")] =
      (some "abc", "1/1", "high", "All 1 models agree") ∧
    (calculate_consensus [("docai", "abc")]).2.2.1 ≠ "low" := by
  decide

/-- C8 amended: for a row with at least TWO valid (non-empty) readings,
all for distinct words, the decision is chosen = null, tier low, reason
"No consensus - flagged for human review". -/
theorem claim_C8_total_disagreement (readings : List (String × String))
    (h2 : 2 ≤ (readings.filter (fun p => p.2 ≠ "")).length)
    (hnd : ((readings.filter (fun p => p.2 ≠ "")).map Prod.snd).Nodup) :
    calculate_consensus readings =
      (none, "1/" ++ toString (readings.filter (fun p => p.2 ≠ "")).length, "low",
        "No consensus - flagged for human review") := by
  have hvne : readings.filter (fun p => p.2 ≠ "") ≠ [] := by
    intro h
    rw [h] at h2
    simp at h2
  have hvalsne : (readings.filter (fun p => p.2 ≠ "")).map Prod.snd ≠ [] := by
    simpa using hvne
  have hcount1 :
      (most_common1
        (counts_in_order ((readings.filter (fun p => p.2 ≠ "")).map Prod.snd))).2 = 1 :=
    most_common1_counts_nodup _ hvalsne hnd
  simp only [calculate_consensus]
  rw [if_neg (by simpa [List.isEmpty_iff] using hvne)]
  rw [hcount1]
  rw [if_neg (by omega)]
  rw [if_neg (by omega)]
  rw [if_neg (by simp)]
  rfl

/-- Witness for the amended C8 at a concrete input: three valid,
all-distinct readings. -/
theorem claim_C8_total_disagreement_witness :
    2 ≤ (([("docai", "a"), ("claude", "b"), ("gpt", "c")] :
        List (String × String)).filter (fun p => p.2 ≠ "")).length ∧
    ((([("docai", "a"), ("claude", "b"), ("gpt", "c")] :
        List (String × String)).filter (fun p => p.2 ≠ "")).map Prod.snd).Nodup ∧
    calculate_consensus [("docai", "a"), ("claude", "b"), ("gpt", "c")] =
      (none, "1/" ++ toString (([("docai", "a"), ("claude", "b"), ("gpt", "c")] :
        List (String × String)).filter (fun p => p.2 ≠ "")).length, "low",
        "No consensus - flagged for human review") :=
  ⟨by decide, by decide,
    claim_C8_total_disagreement [("docai", "a"), ("claude", "b"), ("gpt", "c")]
      (by decide) (by decide)⟩

set_option maxRecDepth 8000 in
/-- Counterexample to C4 as stated: a document producing 80 disagreeing
positions yields a `VerificationResult` whose disagreements list holds
all 80 entries (the collection itself is not capped); only the JSON
report is capped at 50. -/
theorem claim_C4_counterexample :
    ((build_consensus "doc"
        [("docai", ⟨"docai", String.intercalate " " (List.replicate 80 "x"), 1, none⟩),
         ("claude", ⟨"claude", String.intercalate " " (List.replicate 80 "y"), 1, none⟩)]
      ).disagreements.length = 80) ∧
    ¬ ((build_consensus "doc"
        [("docai", ⟨"docai", String.intercalate " " (List.replicate 80 "x"), 1, none⟩),
         ("claude", ⟨"claude", String.intercalate " " (List.replicate 80 "y"), 1, none⟩)]
      ).disagreements.length ≤ 50) ∧
    ((generate_report (build_consensus "doc"
        [("docai", ⟨"docai", String.intercalate " " (List.replicate 80 "x"), 1, none⟩),
         ("claude", ⟨"claude", String.intercalate " " (List.replicate 80 "y"), 1, none⟩)]
      )).disagreements.length = 50) := by
  decide

/-- C4 amended: the `VerificationResult`'s disagreements list holds, in
ascending position order and uncapped, exactly the positions with more
than one distinct non-empty token; the JSON report's disagreement list is
its first 50 entries. -/
theorem claim_C4_disagreement_cap (src : String) (ers : List (String × EngineResult))
    (h2 : 2 ≤ (successful_of ers).length) :
    (build_consensus src ers).disagreements = disagreements_of (aligned_of ers) ∧
    (build_consensus src ers).disagreements.map WordComparison.position =
      (List.range (aligned_of ers).length).filter
        (fun i => disagree_row ((aligned_of ers).getD i [])) ∧
    (generate_report (build_consensus src ers)).disagreements =
      (build_consensus src ers).disagreements.take 50 := by
  have hne : (successful_of ers).isEmpty = false := by
    cases h' : successful_of ers
    · rw [h'] at h2; simp at h2
    · rfl
  have hlen : ¬ (successful_of ers).length = 1 := by omega
  have hb : (build_consensus src ers).disagreements = disagreements_of (aligned_of ers) := by
    simp [build_consensus, hne, hlen]
  refine ⟨hb, ?_, rfl⟩
  rw [hb, disagreements_of_map_position]

/-- Witness for the amended C4 at a concrete input: two successful
engines disagreeing at both positions. -/
theorem claim_C4_disagreement_cap_witness :
    2 ≤ (successful_of
      [("docai", ⟨"docai", "aa bb", 1, none⟩), ("claude", ⟨"claude", "cc dd", 1, none⟩)]).length ∧
    ((build_consensus "doc"
        [("docai", ⟨"docai", "aa bb", 1, none⟩), ("claude", ⟨"claude", "cc dd", 1, none⟩)]
      ).disagreements = disagreements_of (aligned_of
        [("docai", ⟨"docai", "aa bb", 1, none⟩), ("claude", ⟨"claude", "cc dd", 1, none⟩)]) ∧
     (build_consensus "doc"
        [("docai", ⟨"docai", "aa bb", 1, none⟩), ("claude", ⟨"claude", "cc dd", 1, none⟩)]
      ).disagreements.map WordComparison.position =
      (List.range (aligned_of
        [("docai", ⟨"docai", "aa bb", 1, none⟩), ("claude", ⟨"claude", "cc dd", 1, none⟩)]).length).filter
        (fun i => disagree_row ((aligned_of
          [("docai", ⟨"docai", "aa bb", 1, none⟩), ("claude", ⟨"claude", "cc dd", 1, none⟩)]).getD i [])) ∧
     (generate_report (build_consensus "doc"
        [("docai", ⟨"docai", "aa bb", 1, none⟩), ("claude", ⟨"claude", "cc dd", 1, none⟩)])).disagreements =
      (build_consensus "doc"
        [("docai", ⟨"docai", "aa bb", 1, none⟩), ("claude", ⟨"claude", "cc dd", 1, none⟩)]
      ).disagreements.take 50) :=
  ⟨by decide,
    claim_C4_disagreement_cap "doc"
      [("docai", ⟨"docai", "aa bb", 1, none⟩), ("claude", ⟨"claude", "cc dd", 1, none⟩)]
      (by decide)⟩

/-- Counterexample to C6 as stated: two successful readings with
identical (empty) token sequences give overall confidence 0.0, not
1.0 — there are no alignment positions, so the high-count ratio is the
`else 0.0` branch. -/
theorem claim_C6_counterexample :
    2 ≤ (successful_of
      [("docai", ⟨"docai", "", 1, none⟩), ("vision", ⟨"vision", "", 1, none⟩)]).length ∧
    tokenize "" = tokenize "" ∧
    (build_consensus "img"
      [("docai", ⟨"docai", "", 1, none⟩), ("vision", ⟨"vision", "", 1, none⟩)]
    ).overall_confidence = 0 ∧
    (build_consensus "img"
      [("docai", ⟨"docai", "", 1, none⟩), ("vision", ⟨"vision", "", 1, none⟩)]
    ).overall_confidence ≠ 1 := by
  decide

/-- Counterexample to C7 as stated: for image "page.txt" (extension
recognized by no adapter) `verify` does not fail with an unsupported-
format error before dispatch — the docai adapter IS invoked, its
"Unsupported file type" `ValueError` is captured into a failed reading,
and `verify` returns a normal `VerificationResult`. -/
theorem claim_C7_counterexample :
    (verify
        [("docai", Adapter.dedicated
          (docai_extract (fun _ => Except.ok ("hello", 1)) true 100))]
        true "page.txt" =
      Except.ok (build_consensus "page.txt"
        (run_engines
          [("docai", Adapter.dedicated
            (docai_extract (fun _ => Except.ok ("hello", 1)) true 100))] "page.txt"))) ∧
    build_consensus "page.txt"
        (run_engines
          [("docai", Adapter.dedicated
            (docai_extract (fun _ => Except.ok ("hello", 1)) true 100))] "page.txt") =
      { source_file := "page.txt", models_used := ["docai"], consensus_text := "",
        overall_confidence := 0, total_words := 0, high_confidence_words := 0,
        medium_confidence_words := 0, low_confidence_words := 0, disagreements := [],
        engine_results := [("docai",
          { engine := "docai", text := "", confidence := 0,
            error := some "Unsupported file type: .txt" })] } :=
  ⟨rfl, by decide⟩

/-- C7 amended: `verify` performs no extension check of its own — for an
existing path it always dispatches every configured engine and returns a
result; an unrecognized extension instead surfaces only inside the
Document AI adapter's own `extract_text` pre-check as its "Unsupported
file type" `ValueError`, captured per-engine (the Vision API adapter has
no file-type pre-check and is dispatched regardless, like the LLM
engines). -/
theorem claim_C7_no_upfront_format_check (clients : List (String × Adapter))
    (image_path : String) (net : String → Except String (String × ℚ))
    (file_size : Nat)
    (hsuf : (SUPPORTED_TYPES.find? (fun p =>
        p.1 = String.mk ((path_suffix image_path).data.map Char.toLower))).isNone = true) :
    verify clients true image_path =
      Except.ok (build_consensus image_path (run_engines clients image_path)) ∧
    docai_extract net true file_size image_path =
      Except.error ("Unsupported file type: " ++
        String.mk ((path_suffix image_path).data.map Char.toLower)) := by
  constructor
  · rfl
  · simp only [docai_extract]
    rw [if_neg (by simp)]
    rw [if_pos hsuf]

/-- Witness for the amended C7 at a concrete input: "page.txt". -/
theorem claim_C7_no_upfront_format_check_witness :
    (SUPPORTED_TYPES.find? (fun p =>
        p.1 = String.mk ((path_suffix "page.txt").data.map Char.toLower))).isNone = true ∧
    (verify [("docai", Adapter.dedicated
        (docai_extract (fun _ => Except.ok ("hello", 1)) true 100))] true "page.txt" =
      Except.ok (build_consensus "page.txt"
        (run_engines [("docai", Adapter.dedicated
          (docai_extract (fun _ => Except.ok ("hello", 1)) true 100))] "page.txt")) ∧
     docai_extract (fun _ => Except.ok ("hello", 1)) true 100 "page.txt" =
      Except.error ("Unsupported file type: " ++
        String.mk ((path_suffix "page.txt").data.map Char.toLower))) :=
  ⟨by decide,
    claim_C7_no_upfront_format_check
      [("docai", Adapter.dedicated (docai_extract (fun _ => Except.ok ("hello", 1)) true 100))]
      "page.txt" (fun _ => Except.ok ("hello", 1)) 100 (by decide)⟩

/-- C6 amended: with at least two successful readings whose texts all
tokenize to the same NON-EMPTY token sequence, every alignment position
is tiered high, the high count equals the total word count, and the
overall confidence is 1.0 (for an identical empty sequence there are no
positions and the confidence is 0.0, per the counterexample). -/
theorem claim_C6_unanimity (src : String) (ers : List (String × EngineResult))
    (ts : List String) (h2 : 2 ≤ (successful_of ers).length)
    (hts : ∀ p ∈ successful_of ers, tokenize p.2.text = ts) (hne : ts ≠ []) :
    (∀ row ∈ aligned_of ers, confidence_of_row row = "high") ∧
    (build_consensus src ers).high_confidence_words = (build_consensus src ers).total_words ∧
    (build_consensus src ers).overall_confidence = 1 := by
  have hsne : successful_of ers ≠ [] := by
    intro h
    rw [h] at h2
    simp at h2
  have h1 : (((successful_of ers).map fun p => (p.1, p.2.text)).map
      (fun p => (p.1, tokenize p.2))) = (successful_of ers).map (fun p => (p.1, ts)) := by
    rw [List.map_map]
    apply List.map_congr_left
    intro p hp
    simp [Function.comp, hts p hp]
  have hmax : (((successful_of ers).map (fun p => (p.1, ts))).map
      (fun p => p.2.length)).foldr max 0 = ts.length := by
    rw [List.map_map]
    have hcomp : ((fun (p : String × List String) => p.2.length) ∘
        (fun (p : String × EngineResult) => (p.1, ts))) = fun _ => ts.length := rfl
    rw [hcomp]
    exact foldr_max_const ts.length _ hsne
  have haligned : aligned_of ers =
      (List.range ts.length).map
        (fun i => (successful_of ers).map (fun p => (p.1, ts.getD i ""))) := by
    simp only [aligned_of, align_texts, texts_of]
    rw [h1, hmax]
    apply List.map_congr_left
    intro i _
    rw [List.map_map]
    rfl
  obtain ⟨p0, hp0⟩ := List.exists_mem_of_ne_nil _ hsne
  have htok : ∀ w ∈ ts, w ≠ "" := by
    intro w hw
    rw [← hts p0 hp0] at hw
    exact tokenize_mem_ne_empty _ w hw
  have hhigh : ∀ row ∈ aligned_of ers, confidence_of_row row = "high" := by
    intro row hrow
    rw [haligned] at hrow
    rcases List.mem_map.mp hrow with ⟨i, hi, rfl⟩
    have hilt : i < ts.length := List.mem_range.mp hi
    have hwmem : ts.getD i "" ∈ ts := by
      rw [List.getD_eq_getElem?_getD, List.getElem?_eq_getElem hilt, Option.getD_some]
      exact List.getElem_mem hilt
    have hwne := htok _ hwmem
    have hrw : (successful_of ers).map (fun p => (p.1, ts.getD i "")) =
        ((successful_of ers).map Prod.fst).map (fun e => (e, ts.getD i "")) := by
      rw [List.map_map]
      rfl
    unfold confidence_of_row
    rw [hrw, calculate_consensus_const _ _ (by simpa using hsne) hwne]
  have hnotempty : (successful_of ers).isEmpty = false := by
    cases h' : successful_of ers
    · exact absurd h' hsne
    · rfl
  have hlen1 : ¬ (successful_of ers).length = 1 := by omega
  have hcount : high_count_of (aligned_of ers) = (aligned_of ers).length := by
    unfold high_count_of
    rw [List.filter_eq_self.mpr]
    intro row hrow
    simp [hhigh row hrow]
  have hpos : (aligned_of ers).length > 0 := by
    rw [haligned]
    simpa using List.length_pos.mpr hne
  have hoc : overall_confidence_of (aligned_of ers) = 1 := by
    unfold overall_confidence_of
    rw [if_pos hpos, hcount, div_self]
    exact Nat.cast_ne_zero.mpr (by omega)
  refine ⟨hhigh, ?_, ?_⟩
  · simp [build_consensus, hnotempty, hlen1, hcount]
  · simp [build_consensus, hnotempty, hlen1, hoc]

/-- Witness for the amended C6 at a concrete input: two successful
readings both tokenizing to ["same", "text"]. -/
theorem claim_C6_unanimity_witness :
    2 ≤ (successful_of
      [("docai", ⟨"docai", "Same text", 1, none⟩),
       ("vision", ⟨"vision", "Same, TEXT!", 1, none⟩)]).length ∧
    (∀ p ∈ successful_of
      [("docai", ⟨"docai", "Same text", 1, none⟩),
       ("vision", ⟨"vision", "Same, TEXT!", 1, none⟩)],
      tokenize p.2.text = ["same", "text"]) ∧
    (["same", "text"] : List String) ≠ [] ∧
    ((∀ row ∈ aligned_of
        [("docai", ⟨"docai", "Same text", 1, none⟩),
         ("vision", ⟨"vision", "Same, TEXT!", 1, none⟩)],
        confidence_of_row row = "high") ∧
     (build_consensus "img"
        [("docai", ⟨"docai", "Same text", 1, none⟩),
         ("vision", ⟨"vision", "Same, TEXT!", 1, none⟩)]).high_confidence_words =
      (build_consensus "img"
        [("docai", ⟨"docai", "Same text", 1, none⟩),
         ("vision", ⟨"vision", "Same, TEXT!", 1, none⟩)]).total_words ∧
     (build_consensus "img"
        [("docai", ⟨"docai", "Same text", 1, none⟩),
         ("vision", ⟨"vision", "Same, TEXT!", 1, none⟩)]).overall_confidence = 1) :=
  ⟨by decide, by decide, by decide,
    claim_C6_unanimity "img"
      [("docai", ⟨"docai", "Same text", 1, none⟩),
       ("vision", ⟨"vision", "Same, TEXT!", 1, none⟩)]
      ["same", "text"] (by decide) (by decide) (by decide)⟩

/-- C2: with at least two successful readings, when the computed overall
confidence (high positions / total positions) exceeds 0.8 and a
dedicated-ocr engine succeeded (docai checked before vision), the final
consensus text is that engine's raw stored text, replacing the
token-joined candidate. -/
theorem claim_C2_trusted_override (src e : String) (ers : List (String × EngineResult))
    (h2 : 2 ≤ (successful_of ers).length)
    (hconf : overall_confidence_of (aligned_of ers) > 8/10)
    (he : trusted_engine (successful_of ers) = some e) :
    (build_consensus src ers).consensus_text = lookup_text (successful_of ers) e := by
  have hnotempty : (successful_of ers).isEmpty = false := by
    cases h' : successful_of ers
    · rw [h'] at h2; simp at h2
    · rfl
  have hlen1 : ¬ (successful_of ers).length = 1 := by omega
  simp only [build_consensus, hnotempty, Bool.false_eq_true, if_false]
  rw [if_neg hlen1]
  show final_text_of (successful_of ers) (overall_confidence_of (aligned_of ers)) _ =
    lookup_text (successful_of ers) e
  unfold final_text_of
  unfold trusted_engine at he
  by_cases hd : (successful_of ers).any (fun p => p.1 = "docai")
  · rw [if_pos hd] at he
    have hed : e = "docai" := by simpa using he.symm
    subst hed
    rw [if_pos ⟨hconf, hd⟩]
  · rw [if_neg hd] at he
    by_cases hv : (successful_of ers).any (fun p => p.1 = "vision")
    · rw [if_pos hv] at he
      have hev : e = "vision" := by simpa using he.symm
      subst hev
      rw [if_neg (fun hcon => hd hcon.2), if_pos ⟨hconf, hv⟩]
    · rw [if_neg hv] at he
      simp at he

/-- Witness for C2 at a concrete input: three successful engines with
identically tokenizing texts (confidence 1 > 0.8); docai's raw,
punctuated text is the final consensus text. -/
theorem claim_C2_trusted_override_witness :
    2 ≤ (successful_of
      [("vision", ⟨"vision", "Hello world", 1, none⟩),
       ("docai", ⟨"docai", "Hello, world!", 1, none⟩),
       ("claude", ⟨"claude", "hello world", 1, none⟩)]).length ∧
    overall_confidence_of (aligned_of
      [("vision", ⟨"vision", "Hello world", 1, none⟩),
       ("docai", ⟨"docai", "Hello, world!", 1, none⟩),
       ("claude", ⟨"claude", "hello world", 1, none⟩)]) > 8/10 ∧
    trusted_engine (successful_of
      [("vision", ⟨"vision", "Hello world", 1, none⟩),
       ("docai", ⟨"docai", "Hello, world!", 1, none⟩),
       ("claude", ⟨"claude", "hello world", 1, none⟩)]) = some "docai" ∧
    (build_consensus "img"
      [("vision", ⟨"vision", "Hello world", 1, none⟩),
       ("docai", ⟨"docai", "Hello, world!", 1, none⟩),
       ("claude", ⟨"claude", "hello world", 1, none⟩)]).consensus_text =
      lookup_text (successful_of
        [("vision", ⟨"vision", "Hello world", 1, none⟩),
         ("docai", ⟨"docai", "Hello, world!", 1, none⟩),
         ("claude", ⟨"claude", "hello world", 1, none⟩)]) "docai" := by
  have hconf : overall_confidence_of (aligned_of
      [("vision", ⟨"vision", "Hello world", 1, none⟩),
       ("docai", ⟨"docai", "Hello, world!", 1, none⟩),
       ("claude", ⟨"claude", "hello world", 1, none⟩)]) > 8/10 := by
    have hhc : high_count_of (aligned_of
        [("vision", ⟨"vision", "Hello world", 1, none⟩),
         ("docai", ⟨"docai", "Hello, world!", 1, none⟩),
         ("claude", ⟨"claude", "hello world", 1, none⟩)]) = 2 := by decide
    have hal : (aligned_of
        [("vision", ⟨"vision", "Hello world", 1, none⟩),
         ("docai", ⟨"docai", "Hello, world!", 1, none⟩),
         ("claude", ⟨"claude", "hello world", 1, none⟩)]).length = 2 := by decide
    unfold overall_confidence_of
    rw [if_pos (by omega), hhc, hal]
    norm_num
  exact ⟨by decide, hconf,
    by decide,
    claim_C2_trusted_override "img" "docai"
      [("vision", ⟨"vision", "Hello world", 1, none⟩),
       ("docai", ⟨"docai", "Hello, world!", 1, none⟩),
       ("claude", ⟨"claude", "hello world", 1, none⟩)]
      (by decide) hconf (by decide)⟩

/-- C9: when exactly one dedicated-ocr engine (docai or vision)
contributes a non-empty token and the two vision-llm engines agree on a
different word (plurality 2 of 3 valid votes), the chosen token is the
dedicated-ocr engine's word, tier medium, reason "OCR engines agree, LLMs
differ" — one OCR vote overrides the two-vote LLM majority. Stated for
the one-OCR-column-empty rows and for the rows where the other OCR engine
is absent. -/
theorem claim_C9_single_ocr_override (w c : String) (hw : w ≠ "") (hc : c ≠ "")
    (hwc : w ≠ c) :
    calculate_consensus [("docai", w), ("vision", ""), ("claude", c), ("gpt", c)] =
      (some w, "2/3", "medium", "OCR engines agree, LLMs differ") ∧
    calculate_consensus [("docai", ""), ("vision", w), ("claude", c), ("gpt", c)] =
      (some w, "2/3", "medium", "OCR engines agree, LLMs differ") ∧
    calculate_consensus [("docai", w), ("claude", c), ("gpt", c)] =
      (some w, "2/3", "medium", "OCR engines agree, LLMs differ") ∧
    calculate_consensus [("vision", w), ("claude", c), ("gpt", c)] =
      (some w, "2/3", "medium", "OCR engines agree, LLMs differ") := by
  have hcw : c ≠ w := Ne.symm hwc
  refine ⟨?_, ?_, ?_, ?_⟩ <;>
    simp [calculate_consensus, counts_in_order, uniq_in_order, most_common1,
      ocr_engines, llm_engines, hw, hc, hwc, hcw, List.count_cons] <;>
    decide

/-- Witness for C9 at a concrete input: OCR reads "cat", both LLMs read
"bat". -/
theorem claim_C9_single_ocr_override_witness :
    ("cat" : String) ≠ "" ∧ ("bat" : String) ≠ "" ∧ ("cat" : String) ≠ "bat" ∧
    (calculate_consensus [("docai", "cat"), ("vision", ""), ("claude", "bat"), ("gpt", "bat")] =
      (some "cat", "2/3", "medium", "OCR engines agree, LLMs differ") ∧
     calculate_consensus [("docai", ""), ("vision", "cat"), ("claude", "bat"), ("gpt", "bat")] =
      (some "cat", "2/3", "medium", "OCR engines agree, LLMs differ") ∧
     calculate_consensus [("docai", "cat"), ("claude", "bat"), ("gpt", "bat")] =
      (some "cat", "2/3", "medium", "OCR engines agree, LLMs differ") ∧
     calculate_consensus [("vision", "cat"), ("claude", "bat"), ("gpt", "bat")] =
      (some "cat", "2/3", "medium", "OCR engines agree, LLMs differ")) :=
  ⟨by decide, by decide, by decide,
    claim_C9_single_ocr_override "cat" "bat" (by decide) (by decide) (by decide)⟩

/-- C10: every row produced by `align_texts` from a non-empty text map
with at least one non-trivially-tokenizing text has at least one
non-empty engine token, so the `valid_readings`-empty guard of
`calculate_consensus` is false on it and the "No readings" result is
unreachable in `_build_consensus`. -/
theorem claim_C10_no_readings_unreachable (texts : List (String × String))
    (hne : texts ≠ []) (p : String × String) (hp : p ∈ texts)
    (hpt : tokenize p.2 ≠ []) (row : List (String × String))
    (hrow : row ∈ align_texts texts) :
    (∃ q ∈ row, q.2 ≠ "") ∧
    (row.filter (fun q => q.2 ≠ "")).isEmpty = false ∧
    calculate_consensus row ≠ (none, "0/0", "low", "No readings") := by
  simp only [align_texts] at hrow
  rcases List.mem_map.mp hrow with ⟨i, hi, rfl⟩
  have himax := List.mem_range.mp hi
  obtain ⟨x, hx, hix⟩ := lt_foldr_max _ i himax
  rcases List.mem_map.mp hx with ⟨q, hq, rfl⟩
  have hmem : (q.1, q.2.getD i "") ∈
      (texts.map (fun p => (p.1, tokenize p.2))).map (fun p => (p.1, p.2.getD i "")) :=
    List.mem_map_of_mem _ hq
  have hne' : q.2.getD i "" ≠ "" := by
    rcases List.mem_map.mp hq with ⟨t0, _, rfl⟩
    have hmem2 : (tokenize t0.2).getD i "" ∈ tokenize t0.2 := by
      rw [List.getD_eq_getElem?_getD, List.getElem?_eq_getElem hix, Option.getD_some]
      exact List.getElem_mem hix
    exact tokenize_mem_ne_empty _ _ hmem2
  have hfilt : ((texts.map (fun p => (p.1, tokenize p.2))).map
      (fun p => (p.1, p.2.getD i ""))).filter (fun q => q.2 ≠ "") ≠ [] :=
    List.ne_nil_of_mem (List.mem_filter.mpr ⟨hmem, by simpa using hne'⟩)
  refine ⟨⟨_, hmem, hne'⟩, ?_, ?_⟩
  · rw [← Bool.not_eq_true, List.isEmpty_iff]
    exact hfilt
  · simp only [calculate_consensus]
    rw [if_neg (by simpa [List.isEmpty_iff] using hfilt)]
    repeat' split
    all_goals simp

/-- Witness for C10 at a concrete input: two texts, one of which
tokenizes empty, and the first aligned row. -/
theorem claim_C10_no_readings_unreachable_witness :
    ([("docai", "Hi there"), ("claude", "")] : List (String × String)) ≠ [] ∧
    (("docai", "Hi there") : String × String) ∈
      ([("docai", "Hi there"), ("claude", "")] : List (String × String)) ∧
    tokenize "Hi there" ≠ [] ∧
    ([("docai", "hi"), ("claude", "")] : List (String × String)) ∈
      align_texts [("docai", "Hi there"), ("claude", "")] ∧
    ((∃ q ∈ ([("docai", "hi"), ("claude", "")] : List (String × String)), q.2 ≠ "") ∧
      (([("docai", "hi"), ("claude", "")] : List (String × String)).filter
        (fun q => q.2 ≠ "")).isEmpty = false ∧
      calculate_consensus [("docai", "hi"), ("claude", "")] ≠
        (none, "0/0", "low", "No readings")) :=
  ⟨by decide, by decide, by decide, by decide,
    claim_C10_no_readings_unreachable [("docai", "Hi there"), ("claude", "")]
      (by decide) ("docai", "Hi there") (by decide) (by decide)
      [("docai", "hi"), ("claude", "")] (by decide)⟩

end OCRVerify
